import Mathlib

/-!
Shallow embedding of the code-safety validator (`internal/validator`) and the
generation handler decision logic (`internal/handlers`) of the qgis-ai-assistant
backend, together with proofs of the specification claims about them.

Go regular-expression matching (`regexp.MatchString`) is embedded as a small
regular-expression datatype with a Brzozowski-derivative matcher; each Go
pattern string is translated node by node into that datatype.  Go maps
`map[string]bool` holding only `true` values are embedded as the list of their
keys.  The Go `int` score is embedded as `Int`.
-/

namespace QgisAssistant

/-- Regular expressions over characters: empty language, empty string,
a single literal character, a character class, concatenation, alternation
and Kleene star.  These are exactly the constructs used by the validator's
patterns. -/
inductive RE where
  | nul : RE
  | eps : RE
  | lit : Char → RE
  | cls : (Char → Bool) → RE
  | cat : RE → RE → RE
  | alt : RE → RE → RE
  | star : RE → RE

/-- Does the regular expression accept the empty string? -/
def RE.nullable : RE → Bool
  | .nul => false
  | .eps => true
  | .lit _ => false
  | .cls _ => false
  | .cat a b => a.nullable && b.nullable
  | .alt a b => a.nullable || b.nullable
  | .star _ => true

/-- Brzozowski derivative of a regular expression by a character. -/
def RE.deriv : RE → Char → RE
  | .nul, _ => .nul
  | .eps, _ => .nul
  | .lit c, d => if d == c then .eps else .nul
  | .cls p, d => if p d then .eps else .nul
  | .cat a b, d =>
      if a.nullable then .alt (.cat (a.deriv d) b) (b.deriv d)
      else .cat (a.deriv d) b
  | .alt a b, d => .alt (a.deriv d) (b.deriv d)
  | .star a, d => .cat (a.deriv d) (.star a)

/-- Does the regular expression match some prefix of the character list? -/
def RE.matchPre : RE → List Char → Bool
  | r, [] => r.nullable
  | r, c :: s => r.nullable || (r.deriv c).matchPre s

/-- Does the regular expression match some contiguous substring of the
character list?  This is the semantics of Go `regexp.MatchString` /
`(*Regexp).MatchString` used as a boolean test. -/
def RE.search : RE → List Char → Bool
  | r, [] => r.nullable
  | r, c :: s => r.matchPre (c :: s) || r.search s

/-- Embedding of Go `pattern.MatchString(code)`. -/
def reMatch (r : RE) (code : String) : Bool :=
  r.search code.data

/-- Go regexp `\s`: space, tab, newline, form feed, carriage return. -/
def isGoSpace (c : Char) : Bool :=
  c == ' ' || c == '\t' || c == '\n' || c == '\x0c' || c == '\r'

/-- The character class `[a-zA-Z_]`. -/
def isWordChar (c : Char) : Bool := c.isAlpha || c == '_'

/-- The character class `[a-zA-Z0-9_.]` used for module names. -/
def isModChar (c : Char) : Bool := c.isAlphanum || c == '_' || c == '.'

/-- Regular expression matching exactly a literal string. -/
def strRE (s : String) : RE := s.data.foldr (fun c r => RE.cat (RE.lit c) r) RE.eps

/-- Concatenation of a list of regular expressions. -/
def cats (rs : List RE) : RE := rs.foldr RE.cat RE.eps

/-- The regex `r+`, i.e. one or more repetitions. -/
def rePlus (r : RE) : RE := RE.cat r (RE.star r)

/-- The regex `\s`. -/
def spc : RE := RE.cls isGoSpace

/-- The regex `[a-zA-Z_]`. -/
def wordChar : RE := RE.cls isWordChar

/-- The regex `[^)]`. -/
def notRP : RE := RE.cls (fun c => c != ')')

/-- The regex `['"]` (single or double quote). -/
def quoteCls : RE := RE.cls (fun c => c == Char.ofNat 39 || c == '"')

/-- Source function `compileDangerousPatterns`: each entry keeps the Go
pattern source string (used by `pattern.String()` in the error message)
paired with its translation into `RE`. -/
def compileDangerousPatterns : List (String × RE) :=
  [ -- File deletion
    ("os\\.remove\\s*\\(", cats [strRE "os.remove", RE.star spc, RE.lit '(']),
    ("os\\.unlink\\s*\\(", cats [strRE "os.unlink", RE.star spc, RE.lit '(']),
    ("shutil\\.rmtree\\s*\\(", cats [strRE "shutil.rmtree", RE.star spc, RE.lit '(']),
    ("pathlib\\.Path\\s*\\([^)]+\\)\\.unlink\\s*\\(",
      cats [strRE "pathlib.Path", RE.star spc, RE.lit '(', rePlus notRP, RE.lit ')',
            strRE ".unlink", RE.star spc, RE.lit '(']),
    -- System commands
    ("subprocess\\.[a-zA-Z_]+\\s*\\(",
      cats [strRE "subprocess.", rePlus wordChar, RE.star spc, RE.lit '(']),
    ("os\\.system\\s*\\(", cats [strRE "os.system", RE.star spc, RE.lit '(']),
    ("os\\.popen\\s*\\(", cats [strRE "os.popen", RE.star spc, RE.lit '(']),
    ("commands\\.[a-zA-Z_]+\\s*\\(",
      cats [strRE "commands.", rePlus wordChar, RE.star spc, RE.lit '(']),
    -- Code execution
    ("eval\\s*\\(", cats [strRE "eval", RE.star spc, RE.lit '(']),
    ("compile\\s*\\(", cats [strRE "compile", RE.star spc, RE.lit '(']),
    ("__import__\\s*\\(", cats [strRE "__import__", RE.star spc, RE.lit '(']),
    -- File writing (except arcpy temp files)
    ("open\\s*\\([^)]*['\"]w['\"]",
      cats [strRE "open", RE.star spc, RE.lit '(', RE.star notRP, quoteCls, RE.lit 'w', quoteCls]),
    ("open\\s*\\([^)]*['\"]a['\"]",
      cats [strRE "open", RE.star spc, RE.lit '(', RE.star notRP, quoteCls, RE.lit 'a', quoteCls]),
    -- Network
    ("urllib\\.[a-zA-Z_]+", cats [strRE "urllib.", rePlus wordChar]),
    ("requests\\.[a-zA-Z_]+", cats [strRE "requests.", rePlus wordChar]),
    ("http\\.[a-zA-Z_]+", cats [strRE "http.", rePlus wordChar]),
    ("socket\\.[a-zA-Z_]+", cats [strRE "socket.", rePlus wordChar]),
    -- Dangerous builtins
    ("globals\\s*\\(\\s*\\)",
      cats [strRE "globals", RE.star spc, RE.lit '(', RE.star spc, RE.lit ')']),
    ("locals\\s*\\(\\s*\\)",
      cats [strRE "locals", RE.star spc, RE.lit '(', RE.star spc, RE.lit ')']),
    ("vars\\s*\\(\\s*\\)",
      cats [strRE "vars", RE.star spc, RE.lit '(', RE.star spc, RE.lit ')']),
    ("delattr\\s*\\(", cats [strRE "delattr", RE.star spc, RE.lit '(']),
    ("setattr\\s*\\(", cats [strRE "setattr", RE.star spc, RE.lit '('])
  ]

/-- Source function `getAllowedModules` (keys of the Go map, all `true`). -/
def getAllowedModules : List String :=
  ["arcpy", "os.path", "math", "datetime", "json", "re", "collections"]

/-- Source function `getAllowedArcPyFunctions` (keys of the Go map). -/
def getAllowedArcPyFunctions : List String :=
  [ "arcpy.AddMessage", "arcpy.AddWarning", "arcpy.AddError",
    "arcpy.analysis.Buffer", "arcpy.analysis.Clip", "arcpy.analysis.Intersect",
    "arcpy.analysis.Union", "arcpy.analysis.SpatialJoin",
    "arcpy.management.GetCount", "arcpy.management.SelectLayerByLocation",
    "arcpy.management.SelectLayerByAttribute", "arcpy.management.CopyFeatures",
    "arcpy.Describe", "arcpy.ListFields", "arcpy.ListFeatureClasses",
    "arcpy.mp.ArcGISProject" ]

/-- Structure `ValidationResult` from the source. -/
structure ValidationResult where
  IsValid : Bool
  Errors : List String
  Warnings : List String
  Score : Int
deriving DecidableEq, Repr

/-- Structure `Validator` from the source. -/
structure Validator where
  dangerousPatterns : List (String × RE)
  allowedModules : List String
  allowedArcPy : List String

/-- Source function `NewValidator`. -/
def NewValidator : Validator :=
  { dangerousPatterns := compileDangerousPatterns,
    allowedModules := getAllowedModules,
    allowedArcPy := getAllowedArcPyFunctions }

/-- Go `strings.HasPrefix`, computed on the character lists. -/
def strHasPfx (p s : String) : Bool := List.isPrefixOf p.data s.data

/-- Source function `isModuleAllowed`: exact allowlist hit, or an `arcpy`
namespace hit, or a dotted submodule of an allowlisted module. -/
def isModuleAllowed (v : Validator) (module : String) : Bool :=
  if v.allowedModules.contains module then true
  else if strHasPfx "arcpy" module then true
  else v.allowedModules.any (fun allowed => strHasPfx (allowed ++ ".") module)

/-- One attempted match of the import regexp
`(?m)^\s*(?:import|from)\s+([a-zA-Z0-9_.]+)` starting at a line-start
position: skip the (maximal) `\s*` run, require the literal keyword,
require at least one `\s`, then take the maximal nonempty run of module
characters as the capture group; returns the captured module name and the
remainder of the text after the match. -/
def matchImport (s : List Char) : Option (String × List Char) :=
  let s1 := s.dropWhile isGoSpace
  match (if List.isPrefixOf "import".data s1 then some (s1.drop 6)
         else if List.isPrefixOf "from".data s1 then some (s1.drop 4)
         else none) with
  | none => none
  | some s2 =>
    let sp := s2.takeWhile isGoSpace
    if sp.length == 0 then none
    else
      let s3 := s2.drop sp.length
      let m := s3.takeWhile isModChar
      if m.length == 0 then none
      else some (String.mk m, s3.drop m.length)

/-- Left-to-right scan of `FindAllStringSubmatch`: attempt a match at every
line-start position (`(?m)^`), collect the capture groups of successive
non-overlapping matches.  The `Nat` argument is fuel, always at least the
remaining length plus one. -/
def extractAux : Nat → Bool → List Char → List String
  | 0, _, _ => []
  | Nat.succ _, _, [] => []
  | Nat.succ n, lineStart, c :: rest =>
    if lineStart then
      match matchImport (c :: rest) with
      | some p => p.1 :: extractAux n false p.2
      | none => extractAux n (c == '\n') rest
    else extractAux n (c == '\n') rest

/-- All module names extracted by the import regexp, in order. -/
def extractModules (code : String) : List String :=
  extractAux (code.data.length + 1) true code.data

/-- A single-quote character as a string (for the Go error message format). -/
def sq : String := String.mk [Char.ofNat 39]

/-- The Go error message for a disallowed module. -/
def importMsg (module : String) : String :=
  "Модуль " ++ sq ++ module ++ sq ++ " не разрешен"

/-- Source function `validateImports`: one error per extracted module that
is not allowed; the warnings slice is created empty and never appended to. -/
def validateImports (v : Validator) (code : String) : List String × List String :=
  let errors := (extractModules code).foldl
    (fun errs module =>
      if !(isModuleAllowed v module) then errs ++ [importMsg module] else errs) []
  (errors, ([] : List String))

/-- Source function `hasFileOperations`: patterns `open\s*\(`, `\.write\s*\(`,
`\.read\s*\(`. -/
def hasFileOperations (code : String) : Bool :=
  [ cats [strRE "open", RE.star spc, RE.lit '('],
    cats [strRE ".write", RE.star spc, RE.lit '('],
    cats [strRE ".read", RE.star spc, RE.lit '('] ].any (fun p => reMatch p code)

/-- Source function `hasNetworkOperations`: patterns `urllib`, `requests`,
`http\.client`, `socket\s*\(`, `urlopen`. -/
def hasNetworkOperations (code : String) : Bool :=
  [ strRE "urllib", strRE "requests", strRE "http.client",
    cats [strRE "socket", RE.star spc, RE.lit '('],
    strRE "urlopen" ].any (fun p => reMatch p code)

/-- Source function `hasSystemCalls`: patterns `subprocess`, `os\.system`,
`os\.popen`, `os\.spawn`, `commands\.`. -/
def hasSystemCalls (code : String) : Bool :=
  [ strRE "subprocess", strRE "os.system", strRE "os.popen",
    strRE "os.spawn", strRE "commands." ].any (fun p => reMatch p code)

/-- Substring occurrence check on character lists. -/
def isSubstr : List Char → List Char → Bool
  | sub, [] => sub.isEmpty
  | sub, c :: rest => List.isPrefixOf sub (c :: rest) || isSubstr sub rest

/-- Go `strings.Contains`. -/
def goContains (s sub : String) : Bool := isSubstr sub.data s.data

/-- Source function `hasCodeInjection`: literal substrings `exec(`, `eval(`,
`compile(`. -/
def hasCodeInjection (code : String) : Bool :=
  if goContains code "exec(" then true
  else if goContains code "eval(" then true
  else if goContains code "compile(" then true
  else false

/-- The Go error message for a matched dangerous pattern
(`fmt.Sprintf` with `pattern.String()`). -/
def dangerMsg (p : String) : String := "Найден опасный паттерн: " ++ p

/-- The warning for file operations. -/
def fileWarnMsg : String :=
  "Код содержит файловые операции - требуется дополнительная проверка"

/-- The error for network operations. -/
def netErrMsg : String := "Сетевые операции запрещены"

/-- The error for system calls. -/
def sysErrMsg : String := "Системные вызовы запрещены"

/-- The error for code injection. -/
def injErrMsg : String := "Обнаружена попытка инъекции кода (eval/exec)"

/-- Source function `ValidateCode`, step for step: start from a clean result,
run the dangerous-pattern loop, the import check, the file-operation check,
the network check, the system-call check, the injection check, then clamp the
score at zero. -/
def ValidateCode (v : Validator) (code : String) : ValidationResult :=
  let result0 : ValidationResult :=
    { IsValid := true, Errors := [], Warnings := [], Score := 100 }
  let result1 : ValidationResult := v.dangerousPatterns.foldl
    (fun result pattern =>
      if reMatch pattern.2 code then
        { result with
            Errors := result.Errors ++ [dangerMsg pattern.1],
            IsValid := false,
            Score := result.Score - 50 }
      else result) result0
  let importErrors := (validateImports v code).1
  let importWarnings := (validateImports v code).2
  let result2 : ValidationResult := { result1 with
                     Errors := result1.Errors ++ importErrors,
                     Warnings := result1.Warnings ++ importWarnings }
  let result3 : ValidationResult := if importErrors.length > 0 then
      { result2 with IsValid := false, Score := result2.Score - 30 }
    else result2
  let result4 : ValidationResult := if hasFileOperations code then
      { result3 with Warnings := result3.Warnings ++ [fileWarnMsg],
                     Score := result3.Score - 10 }
    else result3
  let result5 : ValidationResult := if hasNetworkOperations code then
      { result4 with Errors := result4.Errors ++ [netErrMsg],
                     IsValid := false, Score := result4.Score - 40 }
    else result4
  let result6 : ValidationResult := if hasSystemCalls code then
      { result5 with Errors := result5.Errors ++ [sysErrMsg],
                     IsValid := false, Score := result5.Score - 50 }
    else result5
  let result7 : ValidationResult := if hasCodeInjection code then
      { result6 with Errors := result6.Errors ++ [injErrMsg],
                     IsValid := false, Score := result6.Score - 50 }
    else result6
  if result7.Score < 0 then { result7 with Score := 0 } else result7

/-- Outcome of the generation handler after code generation succeeded:
either the response is rejected with a localized error message (plus the
warnings accumulated so far), or the code is returned with the warnings. -/
inductive HandleOutcome where
  | reject : String → List String → HandleOutcome
  | accept : String → List String → HandleOutcome
deriving DecidableEq, Repr

/-- The localized rejection message from `GenerateHandler.Handle`. -/
def rejectMsg : String :=
  "Сгенерированный код не прошел проверку безопасности. Попробуйте переформулировать запрос."

/-- The post-generation part of `GenerateHandler.Handle` from the source:
validate the generated code; if invalid, append each validation error to the
warnings with a security marker, and if additionally the score is below 50
reject outright; otherwise append the validation warnings and return the
code. -/
def handleGenerated (code : String) (warnings0 : List String) : HandleOutcome :=
  let validationResult := ValidateCode NewValidator code
  let warnings1 : List String :=
    if !validationResult.IsValid then
      warnings0 ++ validationResult.Errors.map (fun e => "🔒 SECURITY: " ++ e)
    else warnings0
  if !validationResult.IsValid && validationResult.Score < 50 then
    HandleOutcome.reject rejectMsg warnings1
  else
    HandleOutcome.accept code (warnings1 ++ validationResult.Warnings)

/-! Specification-level views of the validator, used to state and prove the
characterization of `ValidateCode`. -/

/-- The dangerous patterns that match the given code. -/
def matchedPatterns (v : Validator) (code : String) : List (String × RE) :=
  v.dangerousPatterns.filter (fun p => reMatch p.2 code)

/-- The errors produced by the dangerous-pattern loop. -/
def dangerErrors (v : Validator) (code : String) : List String :=
  (matchedPatterns v code).map (fun p => dangerMsg p.1)

/-- The final validity flag: no dangerous pattern matched, no import error,
no network operation, no system call, no code injection. -/
def validFlag (v : Validator) (code : String) : Bool :=
  !(v.dangerousPatterns.any (fun p => reMatch p.2 code))
    && (validateImports v code).1.isEmpty
    && !hasNetworkOperations code
    && !hasSystemCalls code
    && !hasCodeInjection code

/-- The final error list: dangerous-pattern errors, import errors, then the
network, system-call and injection errors in check order. -/
def errorsOf (v : Validator) (code : String) : List String :=
  dangerErrors v code
    ++ (validateImports v code).1
    ++ (if hasNetworkOperations code then [netErrMsg] else [])
    ++ (if hasSystemCalls code then [sysErrMsg] else [])
    ++ (if hasCodeInjection code then [injErrMsg] else [])

/-- The final warning list: import warnings (always empty) then the
file-operation warning when it fires. -/
def warningsOf (v : Validator) (code : String) : List String :=
  (validateImports v code).2 ++ (if hasFileOperations code then [fileWarnMsg] else [])

/-- Points deducted by the dangerous-pattern loop: 50 per matching pattern. -/
def dangerDeduction (v : Validator) (code : String) : Int :=
  50 * ((matchedPatterns v code).length : Int)

/-- Points deducted by the import check: a flat 30 when any import error
exists, regardless of how many. -/
def importDeduction (v : Validator) (code : String) : Int :=
  if (validateImports v code).1.length > 0 then 30 else 0

/-- Points deducted by the file-operation check. -/
def fileDeduction (code : String) : Int :=
  if hasFileOperations code then 10 else 0

/-- Points deducted by the network-operation check. -/
def netDeduction (code : String) : Int :=
  if hasNetworkOperations code then 40 else 0

/-- Points deducted by the system-call check. -/
def sysDeduction (code : String) : Int :=
  if hasSystemCalls code then 50 else 0

/-- Points deducted by the code-injection check. -/
def injDeduction (code : String) : Int :=
  if hasCodeInjection code then 50 else 0

/-- Total points deducted before the final clamp at zero. -/
def totalDeduction (v : Validator) (code : String) : Int :=
  dangerDeduction v code + importDeduction v code + fileDeduction code
    + netDeduction code + sysDeduction code + injDeduction code

/-- Total deduction of all checks other than the file-operation check. -/
def nonFileDeduction (v : Validator) (code : String) : Int :=
  dangerDeduction v code + importDeduction v code
    + netDeduction code + sysDeduction code + injDeduction code

/-- Total deduction of all checks other than the import check. -/
def nonImportDeduction (v : Validator) (code : String) : Int :=
  dangerDeduction v code + fileDeduction code
    + netDeduction code + sysDeduction code + injDeduction code

/-! Characterization lemmas. -/

/-- The import scan never produces warnings. -/
lemma validateImports_snd (v : Validator) (code : String) :
    (validateImports v code).2 = [] := rfl

/-- The import-error fold builds one error per disallowed module. -/
lemma importFold (v : Validator) (ms : List String) (acc : List String) :
    ms.foldl (fun errs module =>
        if !(isModuleAllowed v module) then errs ++ [importMsg module] else errs) acc
      = acc ++ (ms.filter (fun m => !(isModuleAllowed v m))).map importMsg := by
  induction ms generalizing acc with
  | nil => simp
  | cons m ms ih =>
    rw [List.foldl_cons, ih]
    by_cases h : isModuleAllowed v m <;> simp [h, List.append_assoc]

/-- The import errors are exactly one per extracted disallowed module. -/
lemma validateImports_fst (v : Validator) (code : String) :
    (validateImports v code).1
      = ((extractModules code).filter (fun m => !(isModuleAllowed v m))).map importMsg := by
  have h := importFold v (extractModules code) []
  simpa [validateImports] using h

/-- The dangerous-pattern loop appends one error and deducts 50 points per
matching pattern, and clears the flag when any pattern matches. -/
lemma dangerFold (code : String) (ps : List (String × RE)) (r : ValidationResult) :
    ps.foldl (fun result pattern =>
        if reMatch pattern.2 code then
          { result with
              Errors := result.Errors ++ [dangerMsg pattern.1],
              IsValid := false,
              Score := result.Score - 50 }
        else result) r
      = { IsValid := r.IsValid && !(ps.any (fun p => reMatch p.2 code)),
          Errors := r.Errors ++ (ps.filter (fun p => reMatch p.2 code)).map (fun p => dangerMsg p.1),
          Warnings := r.Warnings,
          Score := r.Score - 50 * ((ps.filter (fun p => reMatch p.2 code)).length : Int) } := by
  induction ps generalizing r with
  | nil => simp
  | cons p ps ih =>
    rw [List.foldl_cons, ih]
    by_cases h : reMatch p.2 code <;>
      simp [h, List.append_assoc, ValidationResult.mk.injEq] <;>
      omega

/-- Clamping at the end of `ValidateCode` is taking the max with zero. -/
lemma clampScore (r : ValidationResult) :
    (if r.Score < 0 then { r with Score := 0 } else r) = { r with Score := max 0 r.Score } := by
  cases r with
  | mk a b c d => split_ifs with h <;> simp_all <;> omega

/-- Full characterization of `ValidateCode`: the flag is the conjunction of
the five checks, the error and warning lists are the concatenations of the
per-check findings in program order, and the score is 100 minus the sum of
the per-check deductions, clamped at zero. -/
lemma validateCode_eq (v : Validator) (code : String) :
    ValidateCode v code =
      { IsValid := validFlag v code,
        Errors := errorsOf v code,
        Warnings := warningsOf v code,
        Score := max 0 (100 - totalDeduction v code) } := by
  unfold ValidateCode
  dsimp only
  rw [dangerFold, clampScore]
  by_cases hImp : (validateImports v code).1.length > 0 <;>
    by_cases hFile : hasFileOperations code <;>
    by_cases hNet : hasNetworkOperations code <;>
    by_cases hSys : hasSystemCalls code <;>
    by_cases hInj : hasCodeInjection code <;>
    simp_all [validFlag, errorsOf, warningsOf, totalDeduction, dangerDeduction,
      importDeduction, fileDeduction, netDeduction, sysDeduction, injDeduction,
      dangerErrors, matchedPatterns, validateImports_snd, List.append_assoc,
      List.isEmpty_iff, List.length_eq_zero, List.length_pos, ValidationResult.mk.injEq] <;>
    omega

/-- The total deduction is never negative. -/
lemma totalDeduction_nonneg (v : Validator) (code : String) :
    0 ≤ totalDeduction v code := by
  unfold totalDeduction dangerDeduction importDeduction fileDeduction netDeduction
    sysDeduction injDeduction
  split_ifs <;> omega

/-- When at least one import error exists, the import check deducts 30. -/
lemma importDeduction_of_ne (v : Validator) (code : String)
    (h : (validateImports v code).1 ≠ []) : importDeduction v code = 30 := by
  unfold importDeduction
  simp [List.length_pos.mpr h]

/-- The validity flag holds exactly when the error list is empty. -/
lemma validFlag_iff (v : Validator) (code : String) :
    validFlag v code = true ↔ errorsOf v code = [] := by
  unfold validFlag errorsOf dangerErrors matchedPatterns
  by_cases hNet : hasNetworkOperations code <;>
    by_cases hSys : hasSystemCalls code <;>
    by_cases hInj : hasCodeInjection code <;>
    by_cases hImp : (validateImports v code).1 = [] <;>
    simp [hNet, hSys, hInj, hImp, List.append_eq_nil, List.map_eq_nil_iff,
      List.filter_eq_nil_iff, List.any_eq_true, List.isEmpty_iff]

/-- Lemma: `ValidateCode` marks the result valid exactly when no error was recorded. -/
lemma isValid_iff_errors (v : Validator) (code : String) :
    (ValidateCode v code).IsValid = true ↔ (ValidateCode v code).Errors = [] := by
  rw [validateCode_eq]
  exact validFlag_iff v code

/-! Claim theorems. -/

/-- Claim C1: every input matching at least one regex of the validator's fixed
dangerous-pattern set is returned with `isValid = false` and a non-empty
error list. -/
theorem claim_C1 (code : String)
    (h : ∃ p ∈ NewValidator.dangerousPatterns, reMatch p.2 code = true) :
    (ValidateCode NewValidator code).IsValid = false
      ∧ (ValidateCode NewValidator code).Errors ≠ [] := by
  rw [validateCode_eq]
  obtain ⟨p, hp, hm⟩ := h
  have hany : NewValidator.dangerousPatterns.any (fun p => reMatch p.2 code) = true :=
    List.any_eq_true.mpr ⟨p, hp, hm⟩
  constructor
  · simp [validFlag, hany]
  · intro hEq
    have hd := (List.append_eq_nil.mp (List.append_eq_nil.mp (List.append_eq_nil.mp
      (List.append_eq_nil.mp hEq).1).1).1).1
    simp only [dangerErrors, matchedPatterns, List.map_eq_nil_iff,
      List.filter_eq_nil_iff] at hd
    exact absurd hm (by simpa using hd p hp)

/-- Witness for C1 at the concrete input `eval(x)`. -/
theorem claim_C1_witness :
    (ValidateCode NewValidator "eval(x)").IsValid = false
      ∧ (ValidateCode NewValidator "eval(x)").Errors ≠ [] :=
  claim_C1 "eval(x)" (by decide)

/-- Claim C2: the score of every validation result lies between 0 and 100. -/
theorem claim_C2 (code : String) :
    0 ≤ (ValidateCode NewValidator code).Score
      ∧ (ValidateCode NewValidator code).Score ≤ 100 := by
  rw [validateCode_eq]
  have h := totalDeduction_nonneg NewValidator code
  constructor <;> simp <;> omega

/-- Claim C3: a result with a non-empty error list has `isValid = false`. -/
theorem claim_C3 (code : String)
    (h : (ValidateCode NewValidator code).Errors ≠ []) :
    (ValidateCode NewValidator code).IsValid = false := by
  cases hb : (ValidateCode NewValidator code).IsValid with
  | false => rfl
  | true => exact absurd ((isValid_iff_errors NewValidator code).mp hb) h

/-- Witness for C3 at the concrete input `exec(a)`. -/
theorem claim_C3_witness :
    (ValidateCode NewValidator "exec(a)").IsValid = false :=
  claim_C3 "exec(a)" (by decide)

/-- Claim C4: on the single statement `subprocess.call(["rm","-rf","/"])` the
validator reports `isValid = false` with a non-empty error list (the generic
dangerous-pattern check and the dedicated system-call check both fire), the
pre-clamp deductions total at least 100 points, and the final score is 0. -/
theorem claim_C4 :
    ValidateCode NewValidator "subprocess.call([\"rm\",\"-rf\",\"/\"])"
        = { IsValid := false,
            Errors := ["Найден опасный паттерн: subprocess\\.[a-zA-Z_]+\\s*\\(",
                       "Системные вызовы запрещены"],
            Warnings := [],
            Score := 0 }
      ∧ 100 ≤ totalDeduction NewValidator "subprocess.call([\"rm\",\"-rf\",\"/\"])"
      ∧ NewValidator.dangerousPatterns.any
          (fun p => reMatch p.2 "subprocess.call([\"rm\",\"-rf\",\"/\"])") = true
      ∧ hasSystemCalls "subprocess.call([\"rm\",\"-rf\",\"/\"])" = true := by
  decide

/-- Claim C5: a module name is allowed exactly when it is an exact allowlist
member, or has `arcpy` as a prefix, or has some allowlisted module followed by
a dot as a prefix; every extracted module failing all three produces one error
naming that module; and when import errors exist, `isValid` is false and a
flat 30 points are deducted once, independent of the number of offending
imports. -/
theorem claim_C5 :
    (∀ module : String,
        isModuleAllowed NewValidator module = true ↔
          (module ∈ NewValidator.allowedModules
            ∨ strHasPfx "arcpy" module = true
            ∨ ∃ allowed ∈ NewValidator.allowedModules,
                strHasPfx (allowed ++ ".") module = true))
    ∧ (∀ code : String,
        (validateImports NewValidator code).1
          = ((extractModules code).filter
              (fun m => !(isModuleAllowed NewValidator m))).map importMsg)
    ∧ (∀ code : String, (validateImports NewValidator code).1 ≠ [] →
        (ValidateCode NewValidator code).IsValid = false
          ∧ (ValidateCode NewValidator code).Score
              = max 0 (100 - 30 - nonImportDeduction NewValidator code)) := by
  refine ⟨?_, ?_, ?_⟩
  · intro module
    have hc : NewValidator.allowedModules.contains module = true ↔
        module ∈ NewValidator.allowedModules := by simp
    unfold isModuleAllowed
    split_ifs with h1 h2
    · simpa using Or.inl (hc.mp h1)
    · simpa using Or.inr (Or.inl h2)
    · simp only [List.any_eq_true]
      constructor
      · intro hx
        exact Or.inr (Or.inr hx)
      · rintro (hm | hp | hx)
        · exact absurd (hc.mpr hm) h1
        · exact absurd hp h2
        · exact hx
  · intro code
    exact validateImports_fst NewValidator code
  · intro code h
    have h30 : importDeduction NewValidator code = 30 := importDeduction_of_ne _ _ h
    rw [validateCode_eq]
    constructor
    · simp [validFlag, List.isEmpty_iff, h]
    · simp only []
      unfold totalDeduction nonImportDeduction at *
      omega

/-- Witness for C5 at the concrete module `os.path.join` and the concrete
input `import numpy`. -/
theorem claim_C5_witness :
    isModuleAllowed NewValidator "os.path.join" = true
      ∧ (validateImports NewValidator "import numpy").1 ≠ []
      ∧ (ValidateCode NewValidator "import numpy").IsValid = false :=
  ⟨(claim_C5.1 "os.path.join").mpr (Or.inr (Or.inr (by decide))),
   by decide,
   (claim_C5.2.2 "import numpy" (by decide)).1⟩

/-- Claim C6: whenever the file-operation heuristic fires (the code contains
`open(`, `.write(` or `.read(` with optional whitespace before the
parenthesis), the result carries exactly the file-operation warning, the
error list is the file-independent `errorsOf`, exactly 10 points are deducted
for this check, and the validity flag equals the file-independent
`validFlag`. -/
theorem claim_C6 (code : String) (h : hasFileOperations code = true) :
    (ValidateCode NewValidator code).Warnings = [fileWarnMsg]
      ∧ (ValidateCode NewValidator code).Errors = errorsOf NewValidator code
      ∧ (ValidateCode NewValidator code).Score
          = max 0 (100 - nonFileDeduction NewValidator code - 10)
      ∧ (ValidateCode NewValidator code).IsValid = validFlag NewValidator code := by
  rw [validateCode_eq]
  refine ⟨by simp [warningsOf, validateImports_snd, h], rfl, ?_, rfl⟩
  have h10 : fileDeduction code = 10 := by unfold fileDeduction; simp [h]
  simp only []
  unfold totalDeduction nonFileDeduction at *
  omega

/-- Witness for C6 at the concrete input `open(f)`. -/
theorem claim_C6_witness :
    (ValidateCode NewValidator "open(f)").Warnings = [fileWarnMsg]
      ∧ (ValidateCode NewValidator "open(f)").Score
          = max 0 (100 - nonFileDeduction NewValidator "open(f)" - 10) :=
  ⟨(claim_C6 "open(f)" (by decide)).1, (claim_C6 "open(f)" (by decide)).2.2.1⟩

/-- Claim C7: the known-safe API allowlist is never consulted: the result of
`ValidateCode` is identical for any two contents of the `allowedArcPy` set. -/
theorem claim_C7 (s1 s2 : List String) (code : String) :
    ValidateCode { NewValidator with allowedArcPy := s1 } code
      = ValidateCode { NewValidator with allowedArcPy := s2 } code := rfl

/-- Claim C8: the generation handler rejects the response only when the
validator score is strictly below 50; whenever the score is at least 50, the
code is returned and every validator warning is among the returned warnings,
regardless of individual error entries. -/
theorem claim_C8 (code : String) (warnings0 : List String) :
    (∀ e w, handleGenerated code warnings0 = HandleOutcome.reject e w →
        (ValidateCode NewValidator code).Score < 50)
    ∧ (50 ≤ (ValidateCode NewValidator code).Score →
        ∃ w, handleGenerated code warnings0 = HandleOutcome.accept code w
          ∧ ∀ x ∈ (ValidateCode NewValidator code).Warnings, x ∈ w) := by
  constructor
  · intro e w hr
    by_contra hlt
    unfold handleGenerated at hr
    simp [hlt] at hr
  · intro h50
    have hlt : ¬((ValidateCode NewValidator code).Score < 50) := by omega
    unfold handleGenerated
    dsimp only
    rw [if_neg (by simp [hlt])]
    exact ⟨_, rfl, fun x hx => List.mem_append_right _ hx⟩

/-- Witness for C8 at the concrete input `x = 1` with no prior warnings. -/
theorem claim_C8_witness :
    ∃ w, handleGenerated "x = 1" [] = HandleOutcome.accept "x = 1" w
      ∧ ∀ x ∈ (ValidateCode NewValidator "x = 1").Warnings, x ∈ w :=
  (claim_C8 "x = 1" []).2 (by decide)

/-- Claim C9: a result with `isValid = false` has a non-empty error list;
together with the clamped-score invariant, `isValid` holds exactly when the
error list is empty. -/
theorem claim_C9 (code : String) :
    ((ValidateCode NewValidator code).IsValid = false →
        (ValidateCode NewValidator code).Errors ≠ [])
    ∧ ((ValidateCode NewValidator code).IsValid = true ↔
        (ValidateCode NewValidator code).Errors = []) := by
  refine ⟨?_, isValid_iff_errors NewValidator code⟩
  intro hf hE
  have := (isValid_iff_errors NewValidator code).mpr hE
  rw [hf] at this
  exact Bool.false_ne_true this

/-- Witness for C9 at the concrete input `compile(x)`. -/
theorem claim_C9_witness :
    (ValidateCode NewValidator "compile(x)").Errors ≠ [] :=
  (claim_C9 "compile(x)").1 (by decide)

/-- Claim C10: the import scan returns no warnings, and the warnings list of
every validation result has at most one entry (the file-operation warning). -/
theorem claim_C10 (code : String) :
    (validateImports NewValidator code).2 = []
      ∧ (ValidateCode NewValidator code).Warnings.length ≤ 1 := by
  refine ⟨rfl, ?_⟩
  rw [validateCode_eq]
  by_cases hf : hasFileOperations code <;>
    simp [warningsOf, validateImports_snd, hf]

end QgisAssistant
